import Mathlib

/-!
Verification of the intent-classification core of the reststop-travel-oasis
repository (src/src/components/Chatbot.tsx, function processUserQuery), against
its natural-language specification.

The classifier is embedded shallowly: restroom records, locations and the
classification result are Lean structures; the keyword dispatch and the
per-intent filtering are translated branch by branch from processUserQuery.
Coordinates and scores are rationals / naturals; the JavaScript expression
Math.sqrt(dlat^2 + dlng^2) * 111 <= r is embedded by the equivalent
squared comparison (dlat^2 + dlng^2) * 111^2 <= r^2 (the two agree for
r >= 0; the equivalence with the Real.sqrt form is proved below).
-/

namespace RestStop

/-- A geographic position, latitude and longitude in floating-point degrees
(Chatbot.tsx uses `currentLocation.lat` / `.lng`; embedded as rationals). -/
structure Location where
  lat : ℚ
  lng : ℚ
deriving DecidableEq, Repr

/-- Cleanliness data of a record: numeric score 0-100 and a report count
(`r.cleanliness.score`, `r.cleanliness.reports`). -/
structure Cleanliness where
  score : ℕ
  reports : ℕ
deriving DecidableEq, Repr

/-- A restroom record: identity, display name, position, cleanliness and the
boolean capability flags used by processUserQuery
(`accessibility`, `babyChanging`, `genderNeutral`). -/
structure RestroomRecord where
  id : String
  name : String
  location : Location
  cleanliness : Cleanliness
  accessibility : Bool
  babyChanging : Bool
  genderNeutral : Bool
deriving DecidableEq, Repr

/-- The classifier's output: the bot response text, and the optional argument
passed to the `onFindNearbyRestrooms` callback (`none` means the callback is
not invoked; `some s` means it is invoked exactly once, with `s`). -/
structure ClassificationResult where
  response : String
  trigger : Option String
deriving DecidableEq, Repr

/-- Does the character list `hs` start with `needle`? -/
def charsStartWith : List Char → List Char → Bool
  | _, [] => true
  | [], _ :: _ => false
  | a :: as, b :: bs => a == b && charsStartWith as bs

/-- Does `needle` occur contiguously inside the character list? -/
def charsContain (needle : List Char) : List Char → Bool
  | [] => needle.isEmpty
  | a :: as => charsStartWith (a :: as) needle || charsContain needle as

/-- JavaScript `haystack.includes(pat)`: substring containment. -/
def strIncludes (haystack pat : String) : Bool :=
  charsContain pat.toList haystack.toList

/-- JavaScript `query.toLowerCase()` (the keyword tests only involve the
ASCII range): lower-case each character. -/
def toLowerStr (s : String) : String :=
  String.mk (s.data.map Char.toLower)

/-- The inline distance test of Chatbot.tsx:
`Math.sqrt((r.lat - lat)^2 + (r.lng - lng)^2) * 111 <= radius`.
Embedded by squaring both sides (equivalent for `radius >= 0`, proved in
`withinKm_iff_sqrt` below), which keeps the test decidable over ℚ. -/
def withinKm (p q : Location) (radius : ℚ) : Bool :=
  decide (((p.lat - q.lat) ^ 2 + (p.lng - q.lng) ^ 2) * 111 ^ 2 ≤ radius ^ 2)

/-- Modelled from the spec: the data-source helpers `getRestroomsByLocation`
and `getNearbyRestrooms` (modules `@/data/restrooms`, `@/data/userRestrooms`)
are not part of the provided sources. Per the spec they filter the candidate
set to records within the given radius in km (the generic nearby intent passes
`2`), using the same flat-earth distance approximation. The two store-specific
helpers are modelled as one filter over the combined candidate list, matching
the spec's contract in which `candidates` is already the full known set. -/
def nearbyHelper (lat lng : ℚ) (radius : ℚ)
    (candidates : List RestroomRecord) : List RestroomRecord :=
  candidates.filter fun r => withinKm r.location ⟨lat, lng⟩ radius

/-- The three cleanliness tiers returned by `getCleanlinessTier`. -/
inductive Tier
  | high
  | medium
  | low
deriving DecidableEq, Repr

/-- Modelled from the spec: `getCleanlinessTier` lives in `@/data/restrooms`,
which is not part of the provided sources. The spec records only that it is a
three-level high/medium/low classification derived from the numeric score and
used for display wording, not decision logic; the thresholds chosen here
(85 / 60) are a plausible reading and no claim below depends on them. -/
def getCleanlinessTier (score : ℕ) : Tier :=
  if 85 ≤ score then .high else if 60 ≤ score then .medium else .low

/-- The wording derived from the tier in the generic nearby response
(Chatbot.tsx lines 138-139). -/
def tierText : Tier → String
  | .high => "highly rated"
  | .medium => "moderately rated"
  | .low => "lower rated"

/-! ### The response strings of processUserQuery, verbatim from the source -/

def genericFoundMsg (count : ℕ) (closest : RestroomRecord) : String :=
  "I found " ++ toString count ++ " restrooms near you. The closest is " ++
    closest.name ++ ", which is " ++
    tierText (getCleanlinessTier closest.cleanliness.score) ++
    " for cleanliness. Would you like to see them on the map?"

def genericNeedLocationMsg : String :=
  "I\x27d like to find restrooms near you, but I need permission to access your location. Please enable location services and try again."

def genericExpandMsg : String :=
  "I couldn\x27t find any restrooms in your immediate vicinity. Would you like me to expand the search radius?"

def cleanFoundMsg (count : ℕ) (top : RestroomRecord) : String :=
  "I found " ++ toString count ++
    " highly-rated clean restrooms near you. The top rated is " ++ top.name ++
    " with a cleanliness score of " ++ toString top.cleanliness.score ++
    "/100. Would you like me to show them on the map?"

def cleanExpandMsg : String :=
  "I couldn\x27t find any highly-rated clean restrooms in your immediate vicinity. Would you like me to expand the search radius?"

def cleanNeedLocationMsg : String :=
  "I can help you find clean restrooms, but I need your location to provide the best results. Please enable location services."

def accessibleFoundMsg (count : ℕ) : String :=
  "I found " ++ toString count ++
    " accessible restrooms near you. Would you like me to show them on the map?"

def accessibleExpandMsg : String :=
  "I couldn\x27t find any accessible restrooms in your immediate vicinity. Would you like me to expand the search radius?"

def accessibleNeedLocationMsg : String :=
  "I can help you find accessible restrooms, but I need your location to provide the best results. Please enable location services."

def babyFoundMsg (count : ℕ) : String :=
  "I found " ++ toString count ++
    " restrooms with baby changing facilities near you. Would you like me to show them on the map?"

def babyExpandMsg : String :=
  "I couldn\x27t find any restrooms with baby changing facilities in your immediate vicinity. Would you like me to expand the search radius?"

def babyNeedLocationMsg : String :=
  "I can help you find restrooms with baby changing facilities, but I need your location to provide the best results."

def genderFoundMsg (count : ℕ) : String :=
  "I found " ++ toString count ++
    " gender-neutral restrooms near you. Would you like me to show them on the map?"

def genderExpandMsg : String :=
  "I couldn\x27t find any gender-neutral restrooms in your immediate vicinity. Would you like me to expand the search radius?"

def genderNeedLocationMsg : String :=
  "I can help you find gender-neutral restrooms, but I need your location to provide the best results."

def helpMsg : String :=
  "You can ask me to find restrooms near you, get information about specific features like cleanliness ratings, accessibility, baby changing facilities, or gender-neutral options. I can also help you navigate to the nearest restroom. What would you like to know?"

def locationNeedLocationMsg : String :=
  "I don\x27t currently have access to your location. Please enable location services so I can provide better assistance."

def fallbackMsg : String :=
  "I\x27m here to help you find and locate restrooms. You can ask about nearby restrooms, clean facilities, accessible options, baby changing stations, or gender-neutral bathrooms. How can I assist you today?"

/-- JavaScript `Number.prototype.toFixed(4)` for the location-echo response,
on rationals: round to four decimal places and print with exactly four
fractional digits. (Float rounding edge cases are not modelled; no claim
depends on this text.) -/
def toFixed4 (q : ℚ) : String :=
  let n : ℤ := (q * 10000 + 1 / 2).floor
  let m : ℕ := n.natAbs
  let intPart := toString (m / 10000)
  let fracRaw := toString (m % 10000)
  let frac := String.mk (List.replicate (4 - fracRaw.length) '0') ++ fracRaw
  (if n < 0 then "-" else "") ++ intPart ++ "." ++ frac

def locationEchoMsg (loc : Location) : String :=
  "You\x27re currently located at approximately latitude " ++ toFixed4 loc.lat ++
    " and longitude " ++ toFixed4 loc.lng ++
    ". This appears to be in the Coimbatore area. I can help find restrooms near this location."

/-! ### The per-intent filters (the locals of each branch) -/

/-- `cleanRestrooms = allRestrooms.filter(r => r.cleanliness.score >= 85)` -/
def cleanEligible (candidates : List RestroomRecord) : List RestroomRecord :=
  candidates.filter fun r => decide (85 ≤ r.cleanliness.score)

/-- `nearbyCleanRestrooms`: the 3 km distance filter over `cleanRestrooms`. -/
def nearbyCleanOf (loc : Location) (candidates : List RestroomRecord) :
    List RestroomRecord :=
  (cleanEligible candidates).filter fun r => withinKm r.location loc 3

/-- `accessibleRestrooms = allRestrooms.filter(r => r.accessibility)` -/
def accessibleEligible (candidates : List RestroomRecord) : List RestroomRecord :=
  candidates.filter fun r => r.accessibility

/-- `nearbyAccessible`: the 3 km distance filter over `accessibleRestrooms`. -/
def nearbyAccessibleOf (loc : Location) (candidates : List RestroomRecord) :
    List RestroomRecord :=
  (accessibleEligible candidates).filter fun r => withinKm r.location loc 3

/-- `babyChangingRestrooms = allRestrooms.filter(r => r.babyChanging)` -/
def babyEligible (candidates : List RestroomRecord) : List RestroomRecord :=
  candidates.filter fun r => r.babyChanging

/-- `nearbyBabyChanging`: the 3 km distance filter over `babyChangingRestrooms`. -/
def nearbyBabyOf (loc : Location) (candidates : List RestroomRecord) :
    List RestroomRecord :=
  (babyEligible candidates).filter fun r => withinKm r.location loc 3

/-- `genderNeutralRestrooms = allRestrooms.filter(r => r.genderNeutral)` -/
def genderEligible (candidates : List RestroomRecord) : List RestroomRecord :=
  candidates.filter fun r => r.genderNeutral

/-- `nearbyGenderNeutral`: the 3 km distance filter over `genderNeutralRestrooms`. -/
def nearbyGenderOf (loc : Location) (candidates : List RestroomRecord) :
    List RestroomRecord :=
  (genderEligible candidates).filter fun r => withinKm r.location loc 3

/-! ### The branches of processUserQuery -/

/-- Lines 130-147: the generic restroom/bathroom/toilet branch. The JS guard
`nearbyRestrooms.length > 0` with access to `nearbyRestrooms[0]` is embedded
as a match on the list. -/
def genericBranch (query : String) (hasLocation : Bool)
    (nearbyRestrooms : List RestroomRecord) : ClassificationResult :=
  match nearbyRestrooms with
  | closest :: rest =>
      { response := genericFoundMsg (closest :: rest).length closest
        trigger := some query }
  | [] =>
      if !hasLocation then
        { response := genericNeedLocationMsg, trigger := none }
      else
        { response := genericExpandMsg, trigger := none }

/-- Lines 148-168: the clean/hygienic branch. -/
def cleanBranch (hasLocation : Bool) (loc : Location)
    (allRestrooms : List RestroomRecord) : ClassificationResult :=
  if hasLocation && decide (0 < (cleanEligible allRestrooms).length) then
    match nearbyCleanOf loc allRestrooms with
    | top :: rest =>
        { response := cleanFoundMsg (top :: rest).length top
          trigger := some "clean restrooms" }
    | [] => { response := cleanExpandMsg, trigger := none }
  else
    { response := cleanNeedLocationMsg, trigger := none }

/-- Lines 169-189: the accessible/disability branch. -/
def accessibleBranch (hasLocation : Bool) (loc : Location)
    (allRestrooms : List RestroomRecord) : ClassificationResult :=
  if hasLocation && decide (0 < (accessibleEligible allRestrooms).length) then
    match nearbyAccessibleOf loc allRestrooms with
    | top :: rest =>
        { response := accessibleFoundMsg (top :: rest).length
          trigger := some "accessible" }
    | [] => { response := accessibleExpandMsg, trigger := none }
  else
    { response := accessibleNeedLocationMsg, trigger := none }

/-- Lines 190-210: the baby/changing branch. -/
def babyBranch (hasLocation : Bool) (loc : Location)
    (allRestrooms : List RestroomRecord) : ClassificationResult :=
  if hasLocation && decide (0 < (babyEligible allRestrooms).length) then
    match nearbyBabyOf loc allRestrooms with
    | top :: rest =>
        { response := babyFoundMsg (top :: rest).length
          trigger := some "baby changing" }
    | [] => { response := babyExpandMsg, trigger := none }
  else
    { response := babyNeedLocationMsg, trigger := none }

/-- Lines 211-231: the gender/neutral branch. -/
def genderBranch (hasLocation : Bool) (loc : Location)
    (allRestrooms : List RestroomRecord) : ClassificationResult :=
  if hasLocation && decide (0 < (genderEligible allRestrooms).length) then
    match nearbyGenderOf loc allRestrooms with
    | top :: rest =>
        { response := genderFoundMsg (top :: rest).length
          trigger := some "gender neutral" }
    | [] => { response := genderExpandMsg, trigger := none }
  else
    { response := genderNeedLocationMsg, trigger := none }

/-- Lines 234-239: the location-echo branch. -/
def locationBranch (hasLocation : Bool) (loc : Location) : ClassificationResult :=
  if hasLocation then
    { response := locationEchoMsg loc, trigger := none }
  else
    { response := locationNeedLocationMsg, trigger := none }

/-! ### The keyword conditions of the if/else-if chain, in source order -/

def wantsGeneric (nq : String) : Bool :=
  strIncludes nq "restroom" || strIncludes nq "bathroom" || strIncludes nq "toilet"

def wantsClean (nq : String) : Bool :=
  strIncludes nq "clean" || strIncludes nq "hygienic"

def wantsAccessible (nq : String) : Bool :=
  strIncludes nq "accessible" || strIncludes nq "disability"

def wantsBaby (nq : String) : Bool :=
  strIncludes nq "baby" || strIncludes nq "changing"

def wantsGender (nq : String) : Bool :=
  strIncludes nq "gender" || strIncludes nq "neutral"

def wantsHelp (nq : String) : Bool :=
  strIncludes nq "help"

def wantsLocation (nq : String) : Bool :=
  strIncludes nq "location" || strIncludes nq "where am i"

/-- The intent categories of the spec's classifier contract. -/
inductive Intent
  | nearby
  | clean
  | accessible
  | baby
  | gender
  | capabilityHelp
  | locationEcho
  | fallback
deriving DecidableEq, Repr

/-- The first-match-wins keyword dispatch of processUserQuery as a pure
function of the query: exactly the conditions of lines 130, 148, 169, 190,
211, 232 and 234, in source order, over the lower-cased query. -/
def intentOf (query : String) : Intent :=
  let nq := toLowerStr query
  if wantsGeneric nq then .nearby
  else if wantsClean nq then .clean
  else if wantsAccessible nq then .accessible
  else if wantsBaby nq then .baby
  else if wantsGender nq then .gender
  else if wantsHelp nq then .capabilityHelp
  else if wantsLocation nq then .locationEcho
  else .fallback

/-- processUserQuery (Chatbot.tsx lines 113-242) as a pure function:
`query` the raw message, `hasLocation` the `hasLocationPermission` flag,
`loc` the `currentLocation`, `candidates` the combined
`[...getAllRestrooms(), ...getUserRestrooms()]` list. Returns the response
text and the optional `onFindNearbyRestrooms` argument. -/
def classify (query : String) (hasLocation : Bool) (loc : Location)
    (candidates : List RestroomRecord) : ClassificationResult :=
  let normalizedQuery := toLowerStr query
  let allRestrooms := candidates
  let nearbyRestrooms :=
    if hasLocation then nearbyHelper loc.lat loc.lng 2 allRestrooms else []
  if wantsGeneric normalizedQuery then
    genericBranch query hasLocation nearbyRestrooms
  else if wantsClean normalizedQuery then
    cleanBranch hasLocation loc allRestrooms
  else if wantsAccessible normalizedQuery then
    accessibleBranch hasLocation loc allRestrooms
  else if wantsBaby normalizedQuery then
    babyBranch hasLocation loc allRestrooms
  else if wantsGender normalizedQuery then
    genderBranch hasLocation loc allRestrooms
  else if wantsHelp normalizedQuery then
    { response := helpMsg, trigger := none }
  else if wantsLocation normalizedQuery then
    locationBranch hasLocation loc
  else
    { response := fallbackMsg, trigger := none }

/-! ### Concrete data for the spec's scenarios

User location (11.0168, 76.9558) from the spec; records A (score 90) and
B (score 70) both offset by 0.009 degrees of latitude, i.e.
0.009 * 111 = 0.999 km away. -/

def userLoc : Location := ⟨11.0168, 76.9558⟩

def recA : RestroomRecord :=
  { id := "A", name := "A", location := ⟨11.0258, 76.9558⟩
    cleanliness := ⟨90, 12⟩
    accessibility := true, babyChanging := false, genderNeutral := false }

def recB : RestroomRecord :=
  { id := "B", name := "B", location := ⟨11.0078, 76.9558⟩
    cleanliness := ⟨70, 7⟩
    accessibility := false, babyChanging := false, genderNeutral := false }

/-- The five "please enable location" responses, indexed by the
location-dependent intent that produces them (the remaining intents never
produce a location request; they are mapped to the fallback text and the
table is only ever applied to the five location-dependent intents). -/
def needLocationMessage : Intent → String
  | .nearby => genericNeedLocationMsg
  | .clean => cleanNeedLocationMsg
  | .accessible => accessibleNeedLocationMsg
  | .baby => babyNeedLocationMsg
  | .gender => genderNeedLocationMsg
  | _ => fallbackMsg

/-! ### Basic lemmas -/

/-- `classify` dispatches exactly along `intentOf`: the if/else-if chain of
processUserQuery selects the branch of the first matching keyword set. -/
lemma classify_eq_branch (q : String) (h : Bool) (l : Location)
    (c : List RestroomRecord) :
    classify q h l c =
      (match intentOf q with
        | Intent.nearby =>
            genericBranch q h (if h then nearbyHelper l.lat l.lng 2 c else [])
        | Intent.clean => cleanBranch h l c
        | Intent.accessible => accessibleBranch h l c
        | Intent.baby => babyBranch h l c
        | Intent.gender => genderBranch h l c
        | Intent.capabilityHelp => ⟨helpMsg, none⟩
        | Intent.locationEcho => locationBranch h l
        | Intent.fallback => ⟨fallbackMsg, none⟩) := by
  unfold classify intentOf
  by_cases h1 : wantsGeneric (toLowerStr q) = true
  · simp [h1]
  · by_cases h2 : wantsClean (toLowerStr q) = true
    · simp [h1, h2]
    · by_cases h3 : wantsAccessible (toLowerStr q) = true
      · simp [h1, h2, h3]
      · by_cases h4 : wantsBaby (toLowerStr q) = true
        · simp [h1, h2, h3, h4]
        · by_cases h5 : wantsGender (toLowerStr q) = true
          · simp [h1, h2, h3, h4, h5]
          · by_cases h6 : wantsHelp (toLowerStr q) = true
            · simp [h1, h2, h3, h4, h5, h6]
            · by_cases h7 : wantsLocation (toLowerStr q) = true
              · simp [h1, h2, h3, h4, h5, h6, h7]
              · simp [h1, h2, h3, h4, h5, h6, h7]

lemma classify_of_nearby {q : String} (hq : intentOf q = Intent.nearby)
    (h : Bool) (l : Location) (c : List RestroomRecord) :
    classify q h l c =
      genericBranch q h (if h then nearbyHelper l.lat l.lng 2 c else []) := by
  rw [classify_eq_branch, hq]

lemma classify_of_clean {q : String} (hq : intentOf q = Intent.clean)
    (h : Bool) (l : Location) (c : List RestroomRecord) :
    classify q h l c = cleanBranch h l c := by
  rw [classify_eq_branch, hq]

lemma classify_of_accessible {q : String} (hq : intentOf q = Intent.accessible)
    (h : Bool) (l : Location) (c : List RestroomRecord) :
    classify q h l c = accessibleBranch h l c := by
  rw [classify_eq_branch, hq]

lemma classify_of_baby {q : String} (hq : intentOf q = Intent.baby)
    (h : Bool) (l : Location) (c : List RestroomRecord) :
    classify q h l c = babyBranch h l c := by
  rw [classify_eq_branch, hq]

lemma classify_of_gender {q : String} (hq : intentOf q = Intent.gender)
    (h : Bool) (l : Location) (c : List RestroomRecord) :
    classify q h l c = genderBranch h l c := by
  rw [classify_eq_branch, hq]

/-- The squared-comparison embedding of the distance test agrees with the
source's `Math.sqrt((dlat)^2 + (dlng)^2) * 111 <= radius` for any
non-negative radius. -/
lemma withinKm_iff_sqrt (p q : Location) (radius : ℚ) (hr : 0 ≤ radius) :
    withinKm p q radius = true ↔
      Real.sqrt ((((p.lat : ℝ)) - ((q.lat : ℝ))) ^ 2 +
          (((p.lng : ℝ)) - ((q.lng : ℝ))) ^ 2) * 111 ≤ (radius : ℝ) := by
  rw [withinKm, decide_eq_true_eq]
  set s : ℝ := (((p.lat : ℝ)) - ((q.lat : ℝ))) ^ 2 +
      (((p.lng : ℝ)) - ((q.lng : ℝ))) ^ 2 with hs
  have hs0 : 0 ≤ s := by positivity
  have hsq : Real.sqrt s ^ 2 = s := Real.sq_sqrt hs0
  have hsn : 0 ≤ Real.sqrt s := Real.sqrt_nonneg s
  have hrR : (0 : ℝ) ≤ (radius : ℝ) := by exact_mod_cast hr
  constructor
  · intro hle
    have hle' : s * 111 ^ 2 ≤ (radius : ℝ) ^ 2 := by
      have : (((p.lat - q.lat) ^ 2 + (p.lng - q.lng) ^ 2) * 111 ^ 2 : ℚ) ≤
          (radius ^ 2 : ℚ) := hle
      have := (Rat.cast_le (K := ℝ)).2 this
      push_cast at this
      linarith [this]
    nlinarith [sq_nonneg (Real.sqrt s * 111 - (radius : ℝ))]
  · intro hle
    have hle' : s * 111 ^ 2 ≤ (radius : ℝ) ^ 2 := by
      nlinarith
    rw [hs] at hle'
    exact_mod_cast hle'

/-! ### Concrete distance facts for the scenario records -/

lemma withinKm_A_user2 : withinKm recA.location ⟨userLoc.lat, userLoc.lng⟩ 2 = true := by
  simp only [withinKm, recA, userLoc, decide_eq_true_eq]
  norm_num

lemma withinKm_B_user2 : withinKm recB.location ⟨userLoc.lat, userLoc.lng⟩ 2 = true := by
  simp only [withinKm, recB, userLoc, decide_eq_true_eq]
  norm_num

lemma withinKm_A_user3 : withinKm recA.location userLoc 3 = true := by
  simp only [withinKm, recA, userLoc, decide_eq_true_eq]
  norm_num

lemma withinKm_B_user3 : withinKm recB.location userLoc 3 = true := by
  simp only [withinKm, recB, userLoc, decide_eq_true_eq]
  norm_num

/-! ### Claim C1 -/

/-- Claim C1, refuted as stated: the spec's own example query
"find a clean accessible restroom" contains the word "restroom", which is
tested before "clean" in the first-match-wins chain, so classification
resolves to the generic nearby intent, not the clean-restroom intent: with a
nearby candidate of cleanliness score 70 the response counts and names it
(no score >= 85 filter is applied) and the emitted trigger is the raw query,
not "clean restrooms". -/
theorem C1_counterexample :
    intentOf "find a clean accessible restroom" = Intent.nearby ∧
    classify "find a clean accessible restroom" true userLoc [recB] =
      ⟨genericFoundMsg 1 recB, some "find a clean accessible restroom"⟩ ∧
    recB.cleanliness.score < 85 ∧
    some "find a clean accessible restroom" ≠ some "clean restrooms" := by
  refine ⟨by decide, ?_, by decide, by decide⟩
  have hg : wantsGeneric (toLowerStr "find a clean accessible restroom") = true := by
    decide
  simp only [classify, hg, if_true, nearbyHelper, List.filter, withinKm_B_user2,
    genericBranch, List.length]

/-- Claim C1, amended: for every query whose lower-cased form contains both
"clean" and "accessible" and contains none of "restroom", "bathroom",
"toilet", classification resolves to the clean-restroom intent — the branch
that applies the cleanliness score >= 85 filter and emits the
"clean restrooms" trigger — because "clean" is tested before "accessible". -/
theorem C1_amended (q : String) (h : Bool) (l : Location)
    (c : List RestroomRecord)
    (hclean : strIncludes (toLowerStr q) "clean" = true)
    (hacc : strIncludes (toLowerStr q) "accessible" = true)
    (hnr : strIncludes (toLowerStr q) "restroom" = false)
    (hnb : strIncludes (toLowerStr q) "bathroom" = false)
    (hnt : strIncludes (toLowerStr q) "toilet" = false) :
    intentOf q = Intent.clean ∧ classify q h l c = cleanBranch h l c := by
  have hg : wantsGeneric (toLowerStr q) = false := by
    simp [wantsGeneric, hnr, hnb, hnt]
  have hc : wantsClean (toLowerStr q) = true := by
    simp [wantsClean, hclean]
  have hq : intentOf q = Intent.clean := by
    simp [intentOf, hg, hc]
  exact ⟨hq, classify_of_clean hq h l c⟩

/-- Witness for the amended C1 at the concrete query "clean accessible". -/
theorem C1_amended_witness :
    intentOf "clean accessible" = Intent.clean ∧
    classify "clean accessible" true userLoc [recA, recB] =
      cleanBranch true userLoc [recA, recB] :=
  C1_amended "clean accessible" true userLoc [recA, recB]
    (by decide) (by decide) (by decide) (by decide) (by decide)

/-! ### Claim C2 -/

/-- Claim C2, refuted as stated: the scenario query
"Where can I find a clean restroom?" contains "restroom", so it takes the
generic nearby branch: with candidates A (score 90, about 1 km) and
B (score 70, about 1 km) the response reports 2 restrooms (not 1), does not
mention "90/100", and the trigger is the raw query, not "clean restrooms". -/
theorem C2_counterexample :
    intentOf "Where can I find a clean restroom?" = Intent.nearby ∧
    classify "Where can I find a clean restroom?" true userLoc [recA, recB] =
      ⟨genericFoundMsg 2 recA, some "Where can I find a clean restroom?"⟩ ∧
    strIncludes (genericFoundMsg 2 recA) "90/100" = false ∧
    some "Where can I find a clean restroom?" ≠ some "clean restrooms" := by
  refine ⟨by decide, ?_, by decide, by decide⟩
  have hg : wantsGeneric (toLowerStr "Where can I find a clean restroom?") = true := by
    decide
  simp only [classify, hg, if_true, nearbyHelper, List.filter, withinKm_A_user2,
    withinKm_B_user2, genericBranch, List.length]

/-- Claim C2, amended: with the generic keyword removed from the query so
that the clean intent is actually selected (query
"Where can I find a clean washroom?"), hasLocation=true, user location
(11.0168, 76.9558) and candidates A (score 90, about 1 km) and B (score 70,
about 1 km), the response names exactly 1 restroom (A), mentions "90/100",
and the trigger "clean restrooms" is emitted. -/
theorem C2_amended :
    classify "Where can I find a clean washroom?" true userLoc [recA, recB] =
      ⟨cleanFoundMsg 1 recA, some "clean restrooms"⟩ ∧
    strIncludes (cleanFoundMsg 1 recA) "90/100" = true ∧
    strIncludes (cleanFoundMsg 1 recA) "I found 1 highly-rated" = true := by
  refine ⟨?_, by decide, by decide⟩
  have hq : intentOf "Where can I find a clean washroom?" = Intent.clean := by decide
  rw [classify_of_clean hq]
  have he : cleanEligible [recA, recB] = [recA] := by
    simp [cleanEligible, List.filter, recA, recB]
  have hn : nearbyCleanOf userLoc [recA, recB] = [recA] := by
    rw [nearbyCleanOf, he]
    simp [List.filter, withinKm_A_user3]
  simp [cleanBranch, he, hn]

/-! ### Claim C3 -/

/-- Claim C3, refuted as stated: the query "clean restroom" contains "clean"
but also "restroom", so the generic branch wins and its filtered set admits
candidate B with cleanliness score 70 < 85; the response counts and names B,
so eligibility is not restricted to scores >= 85 for every query containing
"clean". -/
theorem C3_counterexample :
    strIncludes (toLowerStr "clean restroom") "clean" = true ∧
    classify "clean restroom" true userLoc [recB] =
      ⟨genericFoundMsg 1 recB, some "clean restroom"⟩ ∧
    recB.cleanliness.score < 85 ∧
    strIncludes (genericFoundMsg 1 recB) "B" = true := by
  refine ⟨by decide, ?_, by decide, by decide⟩
  have hg : wantsGeneric (toLowerStr "clean restroom") = true := by decide
  simp only [classify, hg, if_true, nearbyHelper, List.filter, withinKm_B_user2,
    genericBranch, List.length]

/-- Claim C3, amended: for every query containing "clean" or "hygienic"
(case-insensitively) and none of the generic keywords "restroom", "bathroom",
"toilet", classification takes the clean branch and only candidates with
cleanliness score >= 85 are eligible for the filtered set that the response
counts and names, regardless of other attributes. -/
theorem C3_amended (q : String) (h : Bool) (l : Location)
    (c : List RestroomRecord)
    (hck : strIncludes (toLowerStr q) "clean" = true ∨
      strIncludes (toLowerStr q) "hygienic" = true)
    (hnr : strIncludes (toLowerStr q) "restroom" = false)
    (hnb : strIncludes (toLowerStr q) "bathroom" = false)
    (hnt : strIncludes (toLowerStr q) "toilet" = false) :
    classify q h l c = cleanBranch h l c ∧
    (∀ r ∈ cleanEligible c, 85 ≤ r.cleanliness.score) ∧
    (∀ r ∈ nearbyCleanOf l c, 85 ≤ r.cleanliness.score) := by
  have hg : wantsGeneric (toLowerStr q) = false := by
    simp [wantsGeneric, hnr, hnb, hnt]
  have hc : wantsClean (toLowerStr q) = true := by
    rcases hck with h1 | h1 <;> simp [wantsClean, h1]
  have hq : intentOf q = Intent.clean := by
    simp [intentOf, hg, hc]
  refine ⟨classify_of_clean hq h l c, ?_, ?_⟩
  · intro r hrm
    have := (List.mem_filter.1 hrm).2
    simpa using this
  · intro r hrm
    have h2 := (List.mem_filter.1 hrm).1
    have := (List.mem_filter.1 h2).2
    simpa using this

/-- Witness for the amended C3 at the concrete query "hygienic". -/
theorem C3_amended_witness :
    classify "hygienic" true userLoc [recA, recB] =
      cleanBranch true userLoc [recA, recB] ∧
    (∀ r ∈ cleanEligible [recA, recB], 85 ≤ r.cleanliness.score) ∧
    (∀ r ∈ nearbyCleanOf userLoc [recA, recB], 85 ≤ r.cleanliness.score) :=
  C3_amended "hygienic" true userLoc [recA, recB]
    (Or.inr (by decide)) (by decide) (by decide) (by decide)

/-! ### Claim C4 -/

/-- Claim C4: for every location-dependent intent (generic nearby, clean,
accessible, baby-changing, gender-neutral) and every candidate list, if
hasLocation is false then the result is that intent's location-request
message and no trigger is emitted. -/
theorem C4_needLocation (q : String) (l : Location) (c : List RestroomRecord)
    (hi : intentOf q = Intent.nearby ∨ intentOf q = Intent.clean ∨
      intentOf q = Intent.accessible ∨ intentOf q = Intent.baby ∨
      intentOf q = Intent.gender) :
    classify q false l c = ⟨needLocationMessage (intentOf q), none⟩ := by
  rcases hi with h | h | h | h | h <;> rw [classify_eq_branch, h] <;>
    simp [genericBranch, cleanBranch, accessibleBranch, babyBranch,
      genderBranch, needLocationMessage]

/-- Witness for C4 at the concrete query "toilet" with a non-empty
candidate list. -/
theorem C4_witness :
    classify "toilet" false userLoc [recA] =
      ⟨needLocationMessage (intentOf "toilet"), none⟩ :=
  C4_needLocation "toilet" userLoc [recA] (Or.inl (by decide))

/-! ### Claim C5 -/

/-- Claim C5, refuted as stated: the scenario query "accessible bathroom"
contains "bathroom", so the generic branch wins; with a nearby candidate
(which has accessibility=false) the response is the generic found message —
not the "expand the search radius?" message — and a trigger (the raw query)
is emitted. -/
theorem C5_counterexample :
    recB.accessibility = false ∧
    classify "accessible bathroom" true userLoc [recB] =
      ⟨genericFoundMsg 1 recB, some "accessible bathroom"⟩ ∧
    genericFoundMsg 1 recB ≠ accessibleExpandMsg ∧
    some "accessible bathroom" ≠ (none : Option String) := by
  refine ⟨by decide, ?_, by decide, by decide⟩
  have hg : wantsGeneric (toLowerStr "accessible bathroom") = true := by decide
  simp only [classify, hg, if_true, nearbyHelper, List.filter, withinKm_B_user2,
    genericBranch, List.length]

/-- Claim C5, amended: for the query "accessible" (the scenario's intent
without the generic keyword), hasLocation=true and a candidate list in which
no record has accessibility=true, the result is the accessible-intent
location-request message — not the "expand radius?" message, because the
empty attribute pre-filter falls into the need-location else branch — and no
trigger is emitted. -/
theorem C5_amended (l : Location) (c : List RestroomRecord)
    (hna : ∀ r ∈ c, r.accessibility = false) :
    classify "accessible" true l c = ⟨accessibleNeedLocationMsg, none⟩ := by
  have hq : intentOf "accessible" = Intent.accessible := by decide
  rw [classify_of_accessible hq]
  have he : accessibleEligible c = [] := by
    rw [accessibleEligible, List.filter_eq_nil_iff]
    intro r hr
    simp [hna r hr]
  simp [accessibleBranch, he]

/-- Witness for the amended C5 with the concrete candidate list [recB]. -/
theorem C5_amended_witness :
    classify "accessible" true userLoc [recB] =
      ⟨accessibleNeedLocationMsg, none⟩ :=
  C5_amended userLoc [recB] (by decide)

/-! ### Claim C6 -/

/-- Claim C6: for each attribute-specific intent, when hasLocation is true
but no candidate passes the attribute pre-filter, the classifier returns
that intent's location-request message (not the expand-radius message); the
expand-radius message arises only when the pre-filter is non-empty and the
3 km distance filter empties it — because the location check and the
pre-filter non-emptiness check are conjoined in a single condition. -/
theorem C6_prefilterGate (q : String) (l : Location) (c : List RestroomRecord) :
    (intentOf q = Intent.clean →
      (cleanEligible c = [] →
        classify q true l c = ⟨cleanNeedLocationMsg, none⟩) ∧
      (cleanEligible c ≠ [] → nearbyCleanOf l c = [] →
        classify q true l c = ⟨cleanExpandMsg, none⟩)) ∧
    (intentOf q = Intent.accessible →
      (accessibleEligible c = [] →
        classify q true l c = ⟨accessibleNeedLocationMsg, none⟩) ∧
      (accessibleEligible c ≠ [] → nearbyAccessibleOf l c = [] →
        classify q true l c = ⟨accessibleExpandMsg, none⟩)) ∧
    (intentOf q = Intent.baby →
      (babyEligible c = [] →
        classify q true l c = ⟨babyNeedLocationMsg, none⟩) ∧
      (babyEligible c ≠ [] → nearbyBabyOf l c = [] →
        classify q true l c = ⟨babyExpandMsg, none⟩)) ∧
    (intentOf q = Intent.gender →
      (genderEligible c = [] →
        classify q true l c = ⟨genderNeedLocationMsg, none⟩) ∧
      (genderEligible c ≠ [] → nearbyGenderOf l c = [] →
        classify q true l c = ⟨genderExpandMsg, none⟩)) := by
  refine ⟨fun hq => ⟨?_, ?_⟩, fun hq => ⟨?_, ?_⟩, fun hq => ⟨?_, ?_⟩,
    fun hq => ⟨?_, ?_⟩⟩
  · intro he
    rw [classify_of_clean hq]
    simp [cleanBranch, he]
  · intro he hn
    rw [classify_of_clean hq]
    have hd : decide (0 < (cleanEligible c).length) = true :=
      decide_eq_true (List.length_pos.2 he)
    simp [cleanBranch, hd, hn]
  · intro he
    rw [classify_of_accessible hq]
    simp [accessibleBranch, he]
  · intro he hn
    rw [classify_of_accessible hq]
    have hd : decide (0 < (accessibleEligible c).length) = true :=
      decide_eq_true (List.length_pos.2 he)
    simp [accessibleBranch, hd, hn]
  · intro he
    rw [classify_of_baby hq]
    simp [babyBranch, he]
  · intro he hn
    rw [classify_of_baby hq]
    have hd : decide (0 < (babyEligible c).length) = true :=
      decide_eq_true (List.length_pos.2 he)
    simp [babyBranch, hd, hn]
  · intro he
    rw [classify_of_gender hq]
    simp [genderBranch, he]
  · intro he hn
    rw [classify_of_gender hq]
    have hd : decide (0 < (genderEligible c).length) = true :=
      decide_eq_true (List.length_pos.2 he)
    simp [genderBranch, hd, hn]

/-- Witness for C6: the query "clean" with a single score-70 candidate,
hasLocation=true, yields the location-request message. -/
theorem C6_witness :
    classify "clean" true userLoc [recB] = ⟨cleanNeedLocationMsg, none⟩ :=
  ((C6_prefilterGate "clean" userLoc [recB]).1 (by decide)).1 (by decide)

/-! ### Claim C7 -/

/-- Claim C7: whenever the distance-filtered set is non-empty for the generic
nearby intent or the clean intent, the response names the count of matches
and designates as "closest" / "top rated" the first element of the filtered
sequence in its existing order (no sort is performed), and a trigger is
emitted: the raw query for the generic intent, "clean restrooms" for the
clean intent. -/
theorem C7_firstElement (q : String) (l : Location) (c : List RestroomRecord) :
    (∀ closest rest, intentOf q = Intent.nearby →
      nearbyHelper l.lat l.lng 2 c = closest :: rest →
      classify q true l c =
        ⟨genericFoundMsg (closest :: rest).length closest, some q⟩) ∧
    (∀ top rest, intentOf q = Intent.clean →
      nearbyCleanOf l c = top :: rest →
      classify q true l c =
        ⟨cleanFoundMsg (top :: rest).length top, some "clean restrooms"⟩) := by
  constructor
  · intro closest rest hq hn
    rw [classify_of_nearby hq]
    simp [genericBranch, hn]
  · intro top rest hq hn
    rw [classify_of_clean hq]
    have hne : cleanEligible c ≠ [] := by
      intro h0
      rw [nearbyCleanOf, h0] at hn
      simp [List.filter] at hn
    have hd : decide (0 < (cleanEligible c).length) = true :=
      decide_eq_true (List.length_pos.2 hne)
    simp [cleanBranch, hd, hn]

/-- The generic 2 km filter keeps both scenario records. -/
lemma nearbyHelper_user_AB :
    nearbyHelper userLoc.lat userLoc.lng 2 [recA, recB] = [recA, recB] := by
  simp [nearbyHelper, List.filter, withinKm_A_user2, withinKm_B_user2]

/-- Witness for C7 at the query "toilet" with two nearby records: 2 are
counted and the first listed record (A) is reported as closest. -/
theorem C7_witness :
    classify "toilet" true userLoc [recA, recB] =
      ⟨genericFoundMsg ([recA, recB] : List RestroomRecord).length recA,
        some "toilet"⟩ :=
  (C7_firstElement "toilet" userLoc [recA, recB]).1 recA [recB] (by decide)
    nearbyHelper_user_AB

/-! ### Claim C8 -/

/-- Claim C8: for each attribute-specific intent a candidate is kept by the
distance filter iff sqrt((dlat)^2 + (dlng)^2) * 111 <= 3 km (on top of the
attribute pre-filter), while the generic nearby intent uses a 2 km radius
passed to the data-source helper — the 2 km / 3 km asymmetry is preserved. -/
theorem C8_radii (rec : RestroomRecord) (l : Location)
    (c : List RestroomRecord) :
    (rec ∈ nearbyCleanOf l c ↔ rec ∈ cleanEligible c ∧
      Real.sqrt (((rec.location.lat : ℝ) - (l.lat : ℝ)) ^ 2 +
        ((rec.location.lng : ℝ) - (l.lng : ℝ)) ^ 2) * 111 ≤ 3) ∧
    (rec ∈ nearbyAccessibleOf l c ↔ rec ∈ accessibleEligible c ∧
      Real.sqrt (((rec.location.lat : ℝ) - (l.lat : ℝ)) ^ 2 +
        ((rec.location.lng : ℝ) - (l.lng : ℝ)) ^ 2) * 111 ≤ 3) ∧
    (rec ∈ nearbyBabyOf l c ↔ rec ∈ babyEligible c ∧
      Real.sqrt (((rec.location.lat : ℝ) - (l.lat : ℝ)) ^ 2 +
        ((rec.location.lng : ℝ) - (l.lng : ℝ)) ^ 2) * 111 ≤ 3) ∧
    (rec ∈ nearbyGenderOf l c ↔ rec ∈ genderEligible c ∧
      Real.sqrt (((rec.location.lat : ℝ) - (l.lat : ℝ)) ^ 2 +
        ((rec.location.lng : ℝ) - (l.lng : ℝ)) ^ 2) * 111 ≤ 3) ∧
    (rec ∈ nearbyHelper l.lat l.lng 2 c ↔ rec ∈ c ∧
      Real.sqrt (((rec.location.lat : ℝ) - (l.lat : ℝ)) ^ 2 +
        ((rec.location.lng : ℝ) - (l.lng : ℝ)) ^ 2) * 111 ≤ 2) := by
  have h3 : withinKm rec.location l 3 = true ↔
      Real.sqrt (((rec.location.lat : ℝ) - (l.lat : ℝ)) ^ 2 +
        ((rec.location.lng : ℝ) - (l.lng : ℝ)) ^ 2) * 111 ≤ 3 := by
    rw [withinKm_iff_sqrt rec.location l 3 (by norm_num)]
    norm_num
  have h2 : withinKm rec.location ⟨l.lat, l.lng⟩ 2 = true ↔
      Real.sqrt (((rec.location.lat : ℝ) - (l.lat : ℝ)) ^ 2 +
        ((rec.location.lng : ℝ) - (l.lng : ℝ)) ^ 2) * 111 ≤ 2 := by
    rw [withinKm_iff_sqrt rec.location ⟨l.lat, l.lng⟩ 2 (by norm_num)]
    norm_num
  refine ⟨?_, ?_, ?_, ?_, ?_⟩
  · rw [nearbyCleanOf, List.mem_filter, h3]
  · rw [nearbyAccessibleOf, List.mem_filter, h3]
  · rw [nearbyBabyOf, List.mem_filter, h3]
  · rw [nearbyGenderOf, List.mem_filter, h3]
  · rw [nearbyHelper, List.mem_filter, h2]

/-! ### Claim C9 -/

/-- Claim C9: the empty query matches no keyword, so the classifier takes the
same fallback path as the final else branch: the static fallback response,
no trigger (and, being a total Lean function of its inputs, no exception). -/
theorem C9_emptyQuery (h : Bool) (l : Location) (c : List RestroomRecord) :
    classify "" h l c = ⟨fallbackMsg, none⟩ := by
  have h1 : wantsGeneric (toLowerStr "") = false := by decide
  have h2 : wantsClean (toLowerStr "") = false := by decide
  have h3 : wantsAccessible (toLowerStr "") = false := by decide
  have h4 : wantsBaby (toLowerStr "") = false := by decide
  have h5 : wantsGender (toLowerStr "") = false := by decide
  have h6 : wantsHelp (toLowerStr "") = false := by decide
  have h7 : wantsLocation (toLowerStr "") = false := by decide
  simp [classify, h1, h2, h3, h4, h5, h6, h7]

/-! ### Claim C10 -/

lemma genericBranch_trigger_cases (q : String) (h : Bool)
    (nr : List RestroomRecord) :
    (genericBranch q h nr).trigger = none ∨
      (genericBranch q h nr).trigger = some q := by
  cases nr with
  | nil => cases h <;> simp [genericBranch]
  | cons a t => simp [genericBranch]

lemma cleanBranch_trigger_cases (h : Bool) (l : Location)
    (c : List RestroomRecord) :
    (cleanBranch h l c).trigger = none ∨
      (cleanBranch h l c).trigger = some "clean restrooms" := by
  unfold cleanBranch
  by_cases hc : (h && decide (0 < (cleanEligible c).length)) = true
  · rw [if_pos hc]
    cases hn : nearbyCleanOf l c <;> simp
  · rw [if_neg hc]
    simp

lemma accessibleBranch_trigger_cases (h : Bool) (l : Location)
    (c : List RestroomRecord) :
    (accessibleBranch h l c).trigger = none ∨
      (accessibleBranch h l c).trigger = some "accessible" := by
  unfold accessibleBranch
  by_cases hc : (h && decide (0 < (accessibleEligible c).length)) = true
  · rw [if_pos hc]
    cases hn : nearbyAccessibleOf l c <;> simp
  · rw [if_neg hc]
    simp

lemma babyBranch_trigger_cases (h : Bool) (l : Location)
    (c : List RestroomRecord) :
    (babyBranch h l c).trigger = none ∨
      (babyBranch h l c).trigger = some "baby changing" := by
  unfold babyBranch
  by_cases hc : (h && decide (0 < (babyEligible c).length)) = true
  · rw [if_pos hc]
    cases hn : nearbyBabyOf l c <;> simp
  · rw [if_neg hc]
    simp

lemma genderBranch_trigger_cases (h : Bool) (l : Location)
    (c : List RestroomRecord) :
    (genderBranch h l c).trigger = none ∨
      (genderBranch h l c).trigger = some "gender neutral" := by
  unfold genderBranch
  by_cases hc : (h && decide (0 < (genderEligible c).length)) = true
  · rw [if_pos hc]
    cases hn : nearbyGenderOf l c <;> simp
  · rw [if_neg hc]
    simp

lemma locationBranch_trigger (h : Bool) (l : Location) :
    (locationBranch h l).trigger = none := by
  cases h <;> simp [locationBranch]

/-- Claim C10: whenever a trigger is emitted, the `onFindNearbyRestrooms`
argument is one of the literal labels "clean restrooms", "accessible",
"baby changing", "gender neutral", or — for the generic nearby intent only —
the raw original query text. (At most one invocation per classification call
is inherent in the embedding: the result carries one optional trigger.) -/
theorem C10_labels (q : String) (h : Bool) (l : Location)
    (c : List RestroomRecord) (s : String)
    (htr : (classify q h l c).trigger = some s) :
    s = "clean restrooms" ∨ s = "accessible" ∨ s = "baby changing" ∨
      s = "gender neutral" ∨ (intentOf q = Intent.nearby ∧ s = q) := by
  rw [classify_eq_branch] at htr
  cases hi : intentOf q <;> rw [hi] at htr
  case nearby =>
    rcases genericBranch_trigger_cases q h
        (if h then nearbyHelper l.lat l.lng 2 c else []) with h0 | h0 <;>
      rw [h0] at htr
    · exact absurd htr (by simp)
    · injection htr with h2
      exact Or.inr (Or.inr (Or.inr (Or.inr ⟨rfl, h2.symm⟩)))
  case clean =>
    rcases cleanBranch_trigger_cases h l c with h0 | h0 <;> rw [h0] at htr
    · exact absurd htr (by simp)
    · injection htr with h2
      exact Or.inl h2.symm
  case accessible =>
    rcases accessibleBranch_trigger_cases h l c with h0 | h0 <;> rw [h0] at htr
    · exact absurd htr (by simp)
    · injection htr with h2
      exact Or.inr (Or.inl h2.symm)
  case baby =>
    rcases babyBranch_trigger_cases h l c with h0 | h0 <;> rw [h0] at htr
    · exact absurd htr (by simp)
    · injection htr with h2
      exact Or.inr (Or.inr (Or.inl h2.symm))
  case gender =>
    rcases genderBranch_trigger_cases h l c with h0 | h0 <;> rw [h0] at htr
    · exact absurd htr (by simp)
    · injection htr with h2
      exact Or.inr (Or.inr (Or.inr (Or.inl h2.symm)))
  case capabilityHelp => exact absurd htr (by simp)
  case locationEcho =>
    rw [locationBranch_trigger] at htr
    exact absurd htr (by simp)
  case fallback => exact absurd htr (by simp)

/-- The generic branch at "toilet" with one nearby record emits the raw
query as the trigger. -/
lemma classify_toilet_eval :
    classify "toilet" true userLoc [recA] =
      ⟨genericFoundMsg 1 recA, some "toilet"⟩ := by
  have hg : wantsGeneric (toLowerStr "toilet") = true := by decide
  simp only [classify, hg, if_true, nearbyHelper, List.filter, withinKm_A_user2,
    genericBranch, List.length]

/-- Witness for C10 at the query "toilet": the emitted trigger is the raw
query, the generic-intent case of the label set. -/
theorem C10_witness :
    "toilet" = "clean restrooms" ∨ "toilet" = "accessible" ∨
      "toilet" = "baby changing" ∨ "toilet" = "gender neutral" ∨
      (intentOf "toilet" = Intent.nearby ∧ "toilet" = "toilet") :=
  C10_labels "toilet" true userLoc [recA] "toilet"
    (by rw [classify_toilet_eval])

end RestStop
